import Mathlib

/-!
# Verification of the Quadrate SQLite bridge (`src/sqlite.c`)

Shallow embedding of the 22 VM primitives of the SQLite driver.  Each C
function `usr_sqlite_*` is translated into a pure Lean function over

* an operand stack (`List QdVal`, head = top of stack);
* an error context (`ErrCtx`, the `error_code` / `error_msg` pair of
  `qd_context`);
* a `NativeOracle` describing what the embedded SQLite engine returns for
  each native call (the engine itself is an external collaborator, so its
  results are universally quantified inputs of the model).

Every primitive returns a `PrimResult`: the C `int` return value, the new
stack, the new error context, and the trace of native SQLite calls that were
made during the invocation (so "no native call is performed" is expressible
as `calls = []`).

Modelling conventions:
* pointers are `Nat` addresses, `0` is the C null pointer;
* `double` payloads are carried as their 64-bit pattern (a `Nat`); the
  bridge never computes on floats, it only moves them, and the bit pattern
  of the literal `0.0` is `0`;
* heap allocation (`malloc`/`strdup`/`qd_string_create_with_length`) is
  modelled as always succeeding;
* `qd_stack_pop` consumes the top element even when its kind is not the
  expected one, exactly as the C helper does.
-/

/-- The four operand kinds of the VM stack (`qd_stack_element_t`). -/
inductive QdVal : Type
  | vInt   (i : Int)    -- QD_STACK_TYPE_INT, 64-bit signed
  | vFloat (bits : Nat) -- QD_STACK_TYPE_FLOAT, 64-bit pattern
  | vStr   (s : String) -- QD_STACK_TYPE_STR
  | vPtr   (p : Nat)    -- QD_STACK_TYPE_PTR, 0 = NULL
  deriving DecidableEq, Repr

/-- The `(error_code, error_msg)` slots of `qd_context`; `error_msg = none`
models a NULL `char*`. -/
structure ErrCtx : Type where
  error_code : Int
  error_msg : Option String
  deriving DecidableEq, Repr

/-- One native SQLite call, with the arguments the bridge passed to it. -/
inductive NativeCall : Type
  | openCall (path : String)
  | closeCall (db : Nat)
  | execCall (db : Nat) (sql : String)
  | prepareCall (db : Nat) (sql : String)
  | bindTextCall (stmt : Nat) (idx : Int) (v : String) (len : Nat)
  | bindIntCall (stmt : Nat) (idx : Int) (v : Int)
  | bindFloatCall (stmt : Nat) (idx : Int) (bits : Nat)
  | bindNullCall (stmt : Nat) (idx : Int)
  | stepCall (stmt : Nat)
  | resetCall (stmt : Nat)
  | clearBindingsCall (stmt : Nat)
  | finalizeCall (stmt : Nat)
  | columnCountCall (stmt : Nat)
  | columnNameCall (stmt : Nat) (idx : Int)
  | columnTypeCall (stmt : Nat) (idx : Int)
  | columnIntCall (stmt : Nat) (idx : Int)
  | columnFloatCall (stmt : Nat) (idx : Int)
  | columnTextCall (stmt : Nat) (idx : Int)
  | lastInsertRowidCall (db : Nat)
  | changesCall (db : Nat)
  deriving DecidableEq, Repr

/-- Behaviour of the embedded SQLite engine, one field per native entry
point the bridge uses.  Result codes are C `int`s (`SQLITE_OK = 0`,
`SQLITE_ROW = 100`, `SQLITE_DONE = 101`); out-parameters are returned in
the product. -/
structure NativeOracle : Type where
  sqlite3_open : String → Int × Nat          -- (rc, *db out; may be ≠ 0 on failure)
  sqlite3_errmsg : Nat → String
  sqlite3_exec : Nat → String → Int × Option String  -- (rc, *errmsg out)
  sqlite3_prepare_v2 : Nat → String → Int × Nat      -- (rc, *stmt out)
  sqlite3_bind_text : Nat → Int → String → Nat → Int
  sqlite3_bind_int64 : Nat → Int → Int → Int
  sqlite3_bind_double : Nat → Int → Nat → Int
  sqlite3_bind_null : Nat → Int → Int
  sqlite3_step : Nat → Int
  sqlite3_column_count : Nat → Int
  sqlite3_column_name : Nat → Int → Option String    -- none = NULL name
  sqlite3_column_type : Nat → Int → Int
  sqlite3_column_int64 : Nat → Int → Int
  sqlite3_column_double : Nat → Int → Nat
  sqlite3_column_text : Nat → Int → Option String    -- none = NULL text
  sqlite3_column_bytes : Nat → Int → Int
  sqlite3_last_insert_rowid : Nat → Int
  sqlite3_changes : Nat → Int

/-- Result of one primitive invocation: C return value, new stack, new
error context, and the native calls made. -/
structure PrimResult : Type where
  ret : Int
  stack : List QdVal
  ctx : ErrCtx
  calls : List NativeCall
  deriving DecidableEq, Repr

/- Error codes matching module.qd (`SQLITE_ERR_*` in sqlite.c). -/
def SQLITE_ERR_OK : Int := 1
def SQLITE_ERR_OPEN : Int := 2
def SQLITE_ERR_EXEC : Int := 3
def SQLITE_ERR_PREPARE : Int := 4
def SQLITE_ERR_BIND : Int := 5
def SQLITE_ERR_STEP : Int := 6
def SQLITE_ERR_INVALID_ARG : Int := 7

/- Native SQLite result codes used by the bridge. -/
def SQLITE_OK : Int := 0
def SQLITE_ROW : Int := 100
def SQLITE_DONE : Int := 101

/-- The C cast `(int)x` of a 64-bit value: wrap into `[-2^31, 2^31)`. -/
def toInt32 (i : Int) : Int := (i + 2 ^ 31) % 2 ^ 32 - 2 ^ 31

/-- Model of `set_error_msg`: replace the context message, leaving the code alone. -/
def set_error_msg (ctx : ErrCtx) (msg : String) : ErrCtx :=
  { ctx with error_msg := some msg }

/-- Model of `set_sqlite_error`: store `prefix ++ ": " ++ sqlite3_errmsg(db)`
(or `"unknown error"` when `db` is NULL), leaving the code alone. -/
def set_sqlite_error (o : NativeOracle) (ctx : ErrCtx) (pre : String) (db : Nat) : ErrCtx :=
  let m := if db ≠ 0 then o.sqlite3_errmsg db else "unknown error"
  { ctx with error_msg := some (pre ++ ": " ++ m) }

/-- Model of `qd_stack_pop` followed by the `type != QD_STACK_TYPE_PTR` check:
`none` when the stack is empty or the top is not a pointer; the top element
is consumed in either failure mode, as in the C code. -/
def popPtr : List QdVal → Option Nat × List QdVal
  | [] => (none, [])
  | QdVal.vPtr p :: rest => (some p, rest)
  | _ :: rest => (none, rest)

/-- Model of `qd_stack_pop` followed by the integer kind check. -/
def popInt : List QdVal → Option Int × List QdVal
  | [] => (none, [])
  | QdVal.vInt i :: rest => (some i, rest)
  | _ :: rest => (none, rest)

/-- Model of `qd_stack_pop` followed by the string kind check. -/
def popStr : List QdVal → Option String × List QdVal
  | [] => (none, [])
  | QdVal.vStr s :: rest => (some s, rest)
  | _ :: rest => (none, rest)

/-- Model of `qd_stack_pop` followed by the float kind check. -/
def popFloat : List QdVal → Option Nat × List QdVal
  | [] => (none, [])
  | QdVal.vFloat b :: rest => (some b, rest)
  | _ :: rest => (none, rest)

/-- The transport-tier failure result: `INVALID_ARGUMENT`, message and code
stored, no native call, nothing pushed. -/
def invalidArg (ctx : ErrCtx) (msg : String) (st : List QdVal) : PrimResult :=
  { ret := SQLITE_ERR_INVALID_ARG
    stack := st
    ctx := { error_code := SQLITE_ERR_INVALID_ARG, error_msg := some msg }
    calls := [] }

/-- Model of `usr_sqlite_open` — Stack: `(path:str -- db:ptr)!`. -/
def usr_sqlite_open (o : NativeOracle) (st : List QdVal) (ctx : ErrCtx) : PrimResult :=
  match popStr st with
  | (none, st1) => invalidArg ctx "sqlite::open: expected string path" st1
  | (some path, st1) =>
    let r := o.sqlite3_open path
    if r.1 ≠ SQLITE_OK then
      { ret := SQLITE_ERR_OPEN
        stack := st1
        ctx := { set_sqlite_error o ctx "sqlite::open" r.2 with error_code := SQLITE_ERR_OPEN }
        calls := NativeCall.openCall path ::
          (if r.2 ≠ 0 then [NativeCall.closeCall r.2] else []) }
    else
      { ret := 0
        stack := QdVal.vInt SQLITE_ERR_OK :: QdVal.vPtr r.2 :: st1
        ctx := ctx
        calls := [NativeCall.openCall path] }

/-- Model of `usr_sqlite_close` — Stack: `(db:ptr -- )`. -/
def usr_sqlite_close (o : NativeOracle) (st : List QdVal) (ctx : ErrCtx) : PrimResult :=
  match popPtr st with
  | (none, st1) =>
    { ret := 0
      stack := st1
      ctx := set_error_msg ctx "sqlite::close: expected pointer"
      calls := [] }
  | (some db, st1) =>
    { ret := 0
      stack := st1
      ctx := ctx
      calls := if db ≠ 0 then [NativeCall.closeCall db] else [] }

/-- Shared native-failure encoding of `usr_sqlite_exec` and the transaction
primitives: `sqlite3_exec`'s out-message prefixed with the operation name
when present, otherwise the fixed fallback text. -/
def execFailMsg (pre fallback : String) : Option String → String
  | some m => pre ++ m
  | none => fallback

/-- Model of `usr_sqlite_exec` — Stack: `(sql:str db:ptr -- )!`. -/
def usr_sqlite_exec (o : NativeOracle) (st : List QdVal) (ctx : ErrCtx) : PrimResult :=
  match popPtr st with
  | (none, st1) => invalidArg ctx "sqlite::exec: expected database pointer" st1
  | (some db, st1) =>
    match popStr st1 with
    | (none, st2) => invalidArg ctx "sqlite::exec: expected SQL string" st2
    | (some sql, st2) =>
      let r := o.sqlite3_exec db sql
      if r.1 ≠ SQLITE_OK then
        { ret := SQLITE_ERR_EXEC
          stack := st2
          ctx := { error_code := SQLITE_ERR_EXEC
                   error_msg := some (execFailMsg "sqlite::exec: "
                     "sqlite::exec: execution failed" r.2) }
          calls := [NativeCall.execCall db sql] }
      else
        { ret := 0
          stack := QdVal.vInt SQLITE_ERR_OK :: st2
          ctx := ctx
          calls := [NativeCall.execCall db sql] }

/-- Model of `usr_sqlite_prepare` — Stack: `(sql:str db:ptr -- stmt:ptr)!`. -/
def usr_sqlite_prepare (o : NativeOracle) (st : List QdVal) (ctx : ErrCtx) : PrimResult :=
  match popPtr st with
  | (none, st1) => invalidArg ctx "sqlite::prepare: expected database pointer" st1
  | (some db, st1) =>
    match popStr st1 with
    | (none, st2) => invalidArg ctx "sqlite::prepare: expected SQL string" st2
    | (some sql, st2) =>
      let r := o.sqlite3_prepare_v2 db sql
      if r.1 ≠ SQLITE_OK then
        { ret := SQLITE_ERR_PREPARE
          stack := st2
          ctx := { set_sqlite_error o ctx "sqlite::prepare" db with
                     error_code := SQLITE_ERR_PREPARE }
          calls := [NativeCall.prepareCall db sql] }
      else
        { ret := 0
          stack := QdVal.vInt SQLITE_ERR_OK :: QdVal.vPtr r.2 :: st2
          ctx := ctx
          calls := [NativeCall.prepareCall db sql] }

/-- Model of `usr_sqlite_bind_text` — Stack: `(value:str index:i64 stmt:ptr -- )!`. -/
def usr_sqlite_bind_text (o : NativeOracle) (st : List QdVal) (ctx : ErrCtx) : PrimResult :=
  match popPtr st with
  | (none, st1) => invalidArg ctx "sqlite::bind_text: expected statement pointer" st1
  | (some stmt, st1) =>
    match popInt st1 with
    | (none, st2) => invalidArg ctx "sqlite::bind_text: expected integer index" st2
    | (some idx, st2) =>
      match popStr st2 with
      | (none, st3) => invalidArg ctx "sqlite::bind_text: expected string value" st3
      | (some v, st3) =>
        let rc := o.sqlite3_bind_text stmt (toInt32 idx) v v.length
        if rc ≠ SQLITE_OK then
          { ret := SQLITE_ERR_BIND
            stack := st3
            ctx := { error_code := SQLITE_ERR_BIND
                     error_msg := some "sqlite::bind_text: bind failed" }
            calls := [NativeCall.bindTextCall stmt (toInt32 idx) v v.length] }
        else
          { ret := 0
            stack := QdVal.vInt SQLITE_ERR_OK :: st3
            ctx := ctx
            calls := [NativeCall.bindTextCall stmt (toInt32 idx) v v.length] }

/-- Model of `usr_sqlite_bind_int` — Stack: `(value:i64 index:i64 stmt:ptr -- )!`. -/
def usr_sqlite_bind_int (o : NativeOracle) (st : List QdVal) (ctx : ErrCtx) : PrimResult :=
  match popPtr st with
  | (none, st1) => invalidArg ctx "sqlite::bind_int: expected statement pointer" st1
  | (some stmt, st1) =>
    match popInt st1 with
    | (none, st2) => invalidArg ctx "sqlite::bind_int: expected integer index" st2
    | (some idx, st2) =>
      match popInt st2 with
      | (none, st3) => invalidArg ctx "sqlite::bind_int: expected integer value" st3
      | (some v, st3) =>
        let rc := o.sqlite3_bind_int64 stmt (toInt32 idx) v
        if rc ≠ SQLITE_OK then
          { ret := SQLITE_ERR_BIND
            stack := st3
            ctx := { error_code := SQLITE_ERR_BIND
                     error_msg := some "sqlite::bind_int: bind failed" }
            calls := [NativeCall.bindIntCall stmt (toInt32 idx) v] }
        else
          { ret := 0
            stack := QdVal.vInt SQLITE_ERR_OK :: st3
            ctx := ctx
            calls := [NativeCall.bindIntCall stmt (toInt32 idx) v] }

/-- Model of `usr_sqlite_bind_float` — Stack: `(value:f64 index:i64 stmt:ptr -- )!`. -/
def usr_sqlite_bind_float (o : NativeOracle) (st : List QdVal) (ctx : ErrCtx) : PrimResult :=
  match popPtr st with
  | (none, st1) => invalidArg ctx "sqlite::bind_float: expected statement pointer" st1
  | (some stmt, st1) =>
    match popInt st1 with
    | (none, st2) => invalidArg ctx "sqlite::bind_float: expected integer index" st2
    | (some idx, st2) =>
      match popFloat st2 with
      | (none, st3) => invalidArg ctx "sqlite::bind_float: expected float value" st3
      | (some b, st3) =>
        let rc := o.sqlite3_bind_double stmt (toInt32 idx) b
        if rc ≠ SQLITE_OK then
          { ret := SQLITE_ERR_BIND
            stack := st3
            ctx := { error_code := SQLITE_ERR_BIND
                     error_msg := some "sqlite::bind_float: bind failed" }
            calls := [NativeCall.bindFloatCall stmt (toInt32 idx) b] }
        else
          { ret := 0
            stack := QdVal.vInt SQLITE_ERR_OK :: st3
            ctx := ctx
            calls := [NativeCall.bindFloatCall stmt (toInt32 idx) b] }

/-- Model of `usr_sqlite_bind_null` — Stack: `(index:i64 stmt:ptr -- )!`. -/
def usr_sqlite_bind_null (o : NativeOracle) (st : List QdVal) (ctx : ErrCtx) : PrimResult :=
  match popPtr st with
  | (none, st1) => invalidArg ctx "sqlite::bind_null: expected statement pointer" st1
  | (some stmt, st1) =>
    match popInt st1 with
    | (none, st2) => invalidArg ctx "sqlite::bind_null: expected integer index" st2
    | (some idx, st2) =>
      let rc := o.sqlite3_bind_null stmt (toInt32 idx)
      if rc ≠ SQLITE_OK then
        { ret := SQLITE_ERR_BIND
          stack := st2
          ctx := { error_code := SQLITE_ERR_BIND
                   error_msg := some "sqlite::bind_null: bind failed" }
          calls := [NativeCall.bindNullCall stmt (toInt32 idx)] }
      else
        { ret := 0
          stack := QdVal.vInt SQLITE_ERR_OK :: st2
          ctx := ctx
          calls := [NativeCall.bindNullCall stmt (toInt32 idx)] }

/-- Model of `usr_sqlite_step` — Stack: `(stmt:ptr -- has_row:i64)!`. -/
def usr_sqlite_step (o : NativeOracle) (st : List QdVal) (ctx : ErrCtx) : PrimResult :=
  match popPtr st with
  | (none, st1) => invalidArg ctx "sqlite::step: expected statement pointer" st1
  | (some stmt, st1) =>
    let rc := o.sqlite3_step stmt
    if rc = SQLITE_ROW then
      { ret := 0
        stack := QdVal.vInt SQLITE_ERR_OK :: QdVal.vInt 1 :: st1
        ctx := ctx
        calls := [NativeCall.stepCall stmt] }
    else if rc = SQLITE_DONE then
      { ret := 0
        stack := QdVal.vInt SQLITE_ERR_OK :: QdVal.vInt 0 :: st1
        ctx := ctx
        calls := [NativeCall.stepCall stmt] }
    else
      { ret := SQLITE_ERR_STEP
        stack := st1
        ctx := { error_code := SQLITE_ERR_STEP
                 error_msg := some "sqlite::step: execution failed" }
        calls := [NativeCall.stepCall stmt] }

/-- Model of `usr_sqlite_reset` — Stack: `(stmt:ptr -- )!`; the native return values
of `sqlite3_reset` / `sqlite3_clear_bindings` are ignored. -/
def usr_sqlite_reset (o : NativeOracle) (st : List QdVal) (ctx : ErrCtx) : PrimResult :=
  match popPtr st with
  | (none, st1) => invalidArg ctx "sqlite::reset: expected statement pointer" st1
  | (some stmt, st1) =>
    { ret := 0
      stack := QdVal.vInt SQLITE_ERR_OK :: st1
      ctx := ctx
      calls := [NativeCall.resetCall stmt, NativeCall.clearBindingsCall stmt] }

/-- Model of `usr_sqlite_finalize` — Stack: `(stmt:ptr -- )`. -/
def usr_sqlite_finalize (o : NativeOracle) (st : List QdVal) (ctx : ErrCtx) : PrimResult :=
  match popPtr st with
  | (none, st1) =>
    { ret := 0, stack := st1, ctx := ctx, calls := [] }
  | (some stmt, st1) =>
    { ret := 0
      stack := st1
      ctx := ctx
      calls := if stmt ≠ 0 then [NativeCall.finalizeCall stmt] else [] }

/-- Model of `usr_sqlite_column_count` — Stack: `(stmt:ptr -- count:i64)`. -/
def usr_sqlite_column_count (o : NativeOracle) (st : List QdVal) (ctx : ErrCtx) : PrimResult :=
  match popPtr st with
  | (none, st1) =>
    { ret := 0, stack := QdVal.vInt 0 :: st1, ctx := ctx, calls := [] }
  | (some stmt, st1) =>
    { ret := 0
      stack := QdVal.vInt (o.sqlite3_column_count stmt) :: st1
      ctx := ctx
      calls := [NativeCall.columnCountCall stmt] }

/-- Model of `usr_sqlite_column_name` — Stack: `(index:i64 stmt:ptr -- name:str)`. -/
def usr_sqlite_column_name (o : NativeOracle) (st : List QdVal) (ctx : ErrCtx) : PrimResult :=
  match popPtr st with
  | (none, st1) =>
    { ret := 0, stack := QdVal.vStr "" :: st1, ctx := ctx, calls := [] }
  | (some stmt, st1) =>
    match popInt st1 with
    | (none, st2) =>
      { ret := 0, stack := QdVal.vStr "" :: st2, ctx := ctx, calls := [] }
    | (some idx, st2) =>
      { ret := 0
        stack := QdVal.vStr ((o.sqlite3_column_name stmt (toInt32 idx)).getD "") :: st2
        ctx := ctx
        calls := [NativeCall.columnNameCall stmt (toInt32 idx)] }

/-- Model of `usr_sqlite_column_type` — Stack: `(index:i64 stmt:ptr -- type:i64)`;
the native type code is pushed unchanged. -/
def usr_sqlite_column_type (o : NativeOracle) (st : List QdVal) (ctx : ErrCtx) : PrimResult :=
  match popPtr st with
  | (none, st1) =>
    { ret := 0, stack := QdVal.vInt 0 :: st1, ctx := ctx, calls := [] }
  | (some stmt, st1) =>
    match popInt st1 with
    | (none, st2) =>
      { ret := 0, stack := QdVal.vInt 0 :: st2, ctx := ctx, calls := [] }
    | (some idx, st2) =>
      { ret := 0
        stack := QdVal.vInt (o.sqlite3_column_type stmt (toInt32 idx)) :: st2
        ctx := ctx
        calls := [NativeCall.columnTypeCall stmt (toInt32 idx)] }

/-- Model of `usr_sqlite_column_int` — Stack: `(index:i64 stmt:ptr -- value:i64)`. -/
def usr_sqlite_column_int (o : NativeOracle) (st : List QdVal) (ctx : ErrCtx) : PrimResult :=
  match popPtr st with
  | (none, st1) =>
    { ret := 0, stack := QdVal.vInt 0 :: st1, ctx := ctx, calls := [] }
  | (some stmt, st1) =>
    match popInt st1 with
    | (none, st2) =>
      { ret := 0, stack := QdVal.vInt 0 :: st2, ctx := ctx, calls := [] }
    | (some idx, st2) =>
      { ret := 0
        stack := QdVal.vInt (o.sqlite3_column_int64 stmt (toInt32 idx)) :: st2
        ctx := ctx
        calls := [NativeCall.columnIntCall stmt (toInt32 idx)] }

/-- Model of `usr_sqlite_column_float` — Stack: `(index:i64 stmt:ptr -- value:f64)`. -/
def usr_sqlite_column_float (o : NativeOracle) (st : List QdVal) (ctx : ErrCtx) : PrimResult :=
  match popPtr st with
  | (none, st1) =>
    { ret := 0, stack := QdVal.vFloat 0 :: st1, ctx := ctx, calls := [] }
  | (some stmt, st1) =>
    match popInt st1 with
    | (none, st2) =>
      { ret := 0, stack := QdVal.vFloat 0 :: st2, ctx := ctx, calls := [] }
    | (some idx, st2) =>
      { ret := 0
        stack := QdVal.vFloat (o.sqlite3_column_double stmt (toInt32 idx)) :: st2
        ctx := ctx
        calls := [NativeCall.columnFloatCall stmt (toInt32 idx)] }

/-- Model of `usr_sqlite_column_text` — Stack: `(index:i64 stmt:ptr -- value:str)`;
a NULL text pointer or a non-positive byte count degrades to `""`. -/
def usr_sqlite_column_text (o : NativeOracle) (st : List QdVal) (ctx : ErrCtx) : PrimResult :=
  match popPtr st with
  | (none, st1) =>
    { ret := 0, stack := QdVal.vStr "" :: st1, ctx := ctx, calls := [] }
  | (some stmt, st1) =>
    match popInt st1 with
    | (none, st2) =>
      { ret := 0, stack := QdVal.vStr "" :: st2, ctx := ctx, calls := [] }
    | (some idx, st2) =>
      let text := o.sqlite3_column_text stmt (toInt32 idx)
      let len := o.sqlite3_column_bytes stmt (toInt32 idx)
      { ret := 0
        stack := (match text with
          | some t => if 0 < len then QdVal.vStr t else QdVal.vStr ""
          | none => QdVal.vStr "") :: st2
        ctx := ctx
        calls := [NativeCall.columnTextCall stmt (toInt32 idx)] }

/-- Model of `usr_sqlite_last_insert_rowid` — Stack: `(db:ptr -- rowid:i64)`. -/
def usr_sqlite_last_insert_rowid (o : NativeOracle) (st : List QdVal) (ctx : ErrCtx) :
    PrimResult :=
  match popPtr st with
  | (none, st1) =>
    { ret := 0, stack := QdVal.vInt 0 :: st1, ctx := ctx, calls := [] }
  | (some db, st1) =>
    { ret := 0
      stack := QdVal.vInt (o.sqlite3_last_insert_rowid db) :: st1
      ctx := ctx
      calls := [NativeCall.lastInsertRowidCall db] }

/-- Model of `usr_sqlite_changes` — Stack: `(db:ptr -- changes:i64)`. -/
def usr_sqlite_changes (o : NativeOracle) (st : List QdVal) (ctx : ErrCtx) : PrimResult :=
  match popPtr st with
  | (none, st1) =>
    { ret := 0, stack := QdVal.vInt 0 :: st1, ctx := ctx, calls := [] }
  | (some db, st1) =>
    { ret := 0
      stack := QdVal.vInt (o.sqlite3_changes db) :: st1
      ctx := ctx
      calls := [NativeCall.changesCall db] }

/-- Shared body of the three transaction primitives: pop a database
pointer, run the fixed SQL through `sqlite3_exec`, encode the outcome. -/
def txnPrim (o : NativeOracle) (st : List QdVal) (ctx : ErrCtx)
    (opMsg : String) (sql : String) (pre fallback : String) : PrimResult :=
  match popPtr st with
  | (none, st1) => invalidArg ctx opMsg st1
  | (some db, st1) =>
    let r := o.sqlite3_exec db sql
    if r.1 ≠ SQLITE_OK then
      { ret := SQLITE_ERR_EXEC
        stack := st1
        ctx := { error_code := SQLITE_ERR_EXEC
                 error_msg := some (execFailMsg pre fallback r.2) }
        calls := [NativeCall.execCall db sql] }
    else
      { ret := 0
        stack := QdVal.vInt SQLITE_ERR_OK :: st1
        ctx := ctx
        calls := [NativeCall.execCall db sql] }

/-- Model of `usr_sqlite_begin` — Stack: `(db:ptr -- )!`. -/
def usr_sqlite_begin (o : NativeOracle) (st : List QdVal) (ctx : ErrCtx) : PrimResult :=
  txnPrim o st ctx "sqlite::begin: expected database pointer" "BEGIN TRANSACTION"
    "sqlite::begin: " "sqlite::begin: failed"

/-- Model of `usr_sqlite_commit` — Stack: `(db:ptr -- )!`. -/
def usr_sqlite_commit (o : NativeOracle) (st : List QdVal) (ctx : ErrCtx) : PrimResult :=
  txnPrim o st ctx "sqlite::commit: expected database pointer" "COMMIT"
    "sqlite::commit: " "sqlite::commit: failed"

/-- Model of `usr_sqlite_rollback` — Stack: `(db:ptr -- )!`. -/
def usr_sqlite_rollback (o : NativeOracle) (st : List QdVal) (ctx : ErrCtx) : PrimResult :=
  txnPrim o st ctx "sqlite::rollback: expected database pointer" "ROLLBACK"
    "sqlite::rollback: " "sqlite::rollback: failed"

/-- The 22 primitives exposed by the bridge. -/
inductive Prim : Type
  | pOpen | pClose | pExec | pPrepare
  | pBindText | pBindInt | pBindFloat | pBindNull
  | pStep | pReset | pFinalize
  | pColumnCount | pColumnName | pColumnType | pColumnInt
  | pColumnFloat | pColumnText
  | pLastInsertRowid | pChanges
  | pBegin | pCommit | pRollback
  deriving DecidableEq, Repr

/-- Dispatch a primitive to its implementation. -/
def runPrim : Prim → NativeOracle → List QdVal → ErrCtx → PrimResult
  | .pOpen => usr_sqlite_open
  | .pClose => usr_sqlite_close
  | .pExec => usr_sqlite_exec
  | .pPrepare => usr_sqlite_prepare
  | .pBindText => usr_sqlite_bind_text
  | .pBindInt => usr_sqlite_bind_int
  | .pBindFloat => usr_sqlite_bind_float
  | .pBindNull => usr_sqlite_bind_null
  | .pStep => usr_sqlite_step
  | .pReset => usr_sqlite_reset
  | .pFinalize => usr_sqlite_finalize
  | .pColumnCount => usr_sqlite_column_count
  | .pColumnName => usr_sqlite_column_name
  | .pColumnType => usr_sqlite_column_type
  | .pColumnInt => usr_sqlite_column_int
  | .pColumnFloat => usr_sqlite_column_float
  | .pColumnText => usr_sqlite_column_text
  | .pLastInsertRowid => usr_sqlite_last_insert_rowid
  | .pChanges => usr_sqlite_changes
  | .pBegin => usr_sqlite_begin
  | .pCommit => usr_sqlite_commit
  | .pRollback => usr_sqlite_rollback

/-- Primitives whose stack signature is marked fallible (`!`) in
`sqlite.h`. -/
def fallible : Prim → Bool
  | .pOpen | .pExec | .pPrepare
  | .pBindText | .pBindInt | .pBindFloat | .pBindNull
  | .pStep | .pReset | .pBegin | .pCommit | .pRollback => true
  | _ => false

/-- The cleanup primitives (`close`, `finalize`). -/
def cleanupPrim : Prim → Bool
  | .pClose | .pFinalize => true
  | _ => false

/-- Whether all of a primitive's operand pops succeed on the given stack
(the transport-tier contract). -/
def transportOK : Prim → List QdVal → Bool
  | .pOpen, QdVal.vStr _ :: _ => true
  | .pClose, QdVal.vPtr _ :: _ => true
  | .pExec, QdVal.vPtr _ :: QdVal.vStr _ :: _ => true
  | .pPrepare, QdVal.vPtr _ :: QdVal.vStr _ :: _ => true
  | .pBindText, QdVal.vPtr _ :: QdVal.vInt _ :: QdVal.vStr _ :: _ => true
  | .pBindInt, QdVal.vPtr _ :: QdVal.vInt _ :: QdVal.vInt _ :: _ => true
  | .pBindFloat, QdVal.vPtr _ :: QdVal.vInt _ :: QdVal.vFloat _ :: _ => true
  | .pBindNull, QdVal.vPtr _ :: QdVal.vInt _ :: _ => true
  | .pStep, QdVal.vPtr _ :: _ => true
  | .pReset, QdVal.vPtr _ :: _ => true
  | .pFinalize, QdVal.vPtr _ :: _ => true
  | .pColumnCount, QdVal.vPtr _ :: _ => true
  | .pColumnName, QdVal.vPtr _ :: QdVal.vInt _ :: _ => true
  | .pColumnType, QdVal.vPtr _ :: QdVal.vInt _ :: _ => true
  | .pColumnInt, QdVal.vPtr _ :: QdVal.vInt _ :: _ => true
  | .pColumnFloat, QdVal.vPtr _ :: QdVal.vInt _ :: _ => true
  | .pColumnText, QdVal.vPtr _ :: QdVal.vInt _ :: _ => true
  | .pLastInsertRowid, QdVal.vPtr _ :: _ => true
  | .pChanges, QdVal.vPtr _ :: _ => true
  | .pBegin, QdVal.vPtr _ :: _ => true
  | .pCommit, QdVal.vPtr _ :: _ => true
  | .pRollback, QdVal.vPtr _ :: _ => true
  | _, _ => false

/-- Whether the native call a fallible primitive would make on a
transport-valid stack succeeds (for `step`, reports a row or completion;
for `reset`, the native return is ignored, so always true). -/
def nativeOK (p : Prim) (o : NativeOracle) (st : List QdVal) : Bool :=
  match p, st with
  | .pOpen, QdVal.vStr path :: _ => (o.sqlite3_open path).1 = SQLITE_OK
  | .pExec, QdVal.vPtr db :: QdVal.vStr sql :: _ => (o.sqlite3_exec db sql).1 = SQLITE_OK
  | .pPrepare, QdVal.vPtr db :: QdVal.vStr sql :: _ =>
      (o.sqlite3_prepare_v2 db sql).1 = SQLITE_OK
  | .pBindText, QdVal.vPtr s :: QdVal.vInt i :: QdVal.vStr v :: _ =>
      o.sqlite3_bind_text s (toInt32 i) v v.length = SQLITE_OK
  | .pBindInt, QdVal.vPtr s :: QdVal.vInt i :: QdVal.vInt v :: _ =>
      o.sqlite3_bind_int64 s (toInt32 i) v = SQLITE_OK
  | .pBindFloat, QdVal.vPtr s :: QdVal.vInt i :: QdVal.vFloat b :: _ =>
      o.sqlite3_bind_double s (toInt32 i) b = SQLITE_OK
  | .pBindNull, QdVal.vPtr s :: QdVal.vInt i :: _ =>
      o.sqlite3_bind_null s (toInt32 i) = SQLITE_OK
  | .pStep, QdVal.vPtr s :: _ =>
      o.sqlite3_step s = SQLITE_ROW || o.sqlite3_step s = SQLITE_DONE
  | .pBegin, QdVal.vPtr db :: _ => (o.sqlite3_exec db "BEGIN TRANSACTION").1 = SQLITE_OK
  | .pCommit, QdVal.vPtr db :: _ => (o.sqlite3_exec db "COMMIT").1 = SQLITE_OK
  | .pRollback, QdVal.vPtr db :: _ => (o.sqlite3_exec db "ROLLBACK").1 = SQLITE_OK
  | _, _ => true

/-- Number of operand pops a primitive performs on a transport-valid
stack. -/
def arity : Prim → Nat
  | .pOpen | .pClose | .pStep | .pReset | .pFinalize
  | .pColumnCount | .pLastInsertRowid | .pChanges
  | .pBegin | .pCommit | .pRollback => 1
  | .pExec | .pPrepare | .pBindNull
  | .pColumnName | .pColumnType | .pColumnInt
  | .pColumnFloat | .pColumnText => 2
  | .pBindText | .pBindInt | .pBindFloat => 3

/-- Number of result values a fallible primitive pushes below the trailing
`OK` status on success. -/
def resCount : Prim → Nat
  | .pOpen | .pPrepare | .pStep => 1
  | _ => 0

/-- The degraded default a read accessor pushes on an invalid operand. -/
def accessorDefault : Prim → QdVal
  | .pColumnName | .pColumnText => QdVal.vStr ""
  | .pColumnFloat => QdVal.vFloat 0
  | _ => QdVal.vInt 0

/- Small suffix facts used to express "deeper stack entries are left
untouched". -/

/-- A list is a suffix of itself. -/
theorem sfx0 (l : List QdVal) : l <:+ l := ⟨[], rfl⟩

/-- Dropping one element exposes a suffix. -/
theorem sfx1 (v : QdVal) (l : List QdVal) : l <:+ v :: l := ⟨[v], rfl⟩

/-- Dropping two elements exposes a suffix. -/
theorem sfx2 (v w : QdVal) (l : List QdVal) : l <:+ v :: w :: l := ⟨[v, w], rfl⟩

/-- Dropping three elements exposes a suffix. -/
theorem sfx3 (u v w : QdVal) (l : List QdVal) : l <:+ u :: v :: w :: l := ⟨[u, v, w], rfl⟩

/-- The behavioural core of one primitive on one input, shared by the
claim theorems:

* `retIff` — the C return value is `0` exactly when the primitive is
  non-fallible, or both its operand pops and its native call succeed;
* `errCode` — a non-zero return equals the error code stored in the
  Error Context and lies in `{2,…,7}`;
* `okKeepsCode` — a zero return leaves `error_code` untouched;
* `transportFail` — a fallible primitive stopped by a bad pop returns
  `INVALID_ARGUMENT`, records code `7` and a message, performs no native
  call and pushes nothing (the result stack is a suffix of the input);
* `fallSuccessHead` / `fallSuccessDrop` — a fallible primitive that
  returns `0` leaves `OK` on top of the stack with its `resCount` result
  values directly beneath, above the untouched remainder of the input;
* `cleanupShape` — a cleanup primitive returns `0` and pushes nothing;
* `accessorShape` — a read accessor returns `0`, leaves the Error Context
  untouched, pushes exactly one value, and pushes its degraded default
  when an operand pop failed. -/
structure PrimCore (p : Prim) (o : NativeOracle) (st : List QdVal) (ctx : ErrCtx) : Prop where
  retIff : (runPrim p o st ctx).ret = 0 ↔
    (fallible p = false ∨ (transportOK p st = true ∧ nativeOK p o st = true))
  errCode : (runPrim p o st ctx).ret ≠ 0 →
    (runPrim p o st ctx).ctx.error_code = (runPrim p o st ctx).ret ∧
    ((runPrim p o st ctx).ret = 2 ∨ (runPrim p o st ctx).ret = 3 ∨
     (runPrim p o st ctx).ret = 4 ∨ (runPrim p o st ctx).ret = 5 ∨
     (runPrim p o st ctx).ret = 6 ∨ (runPrim p o st ctx).ret = 7)
  okKeepsCode : (runPrim p o st ctx).ret = 0 →
    (runPrim p o st ctx).ctx.error_code = ctx.error_code
  transportFail : fallible p = true → transportOK p st = false →
    (runPrim p o st ctx).ret = SQLITE_ERR_INVALID_ARG ∧
    (runPrim p o st ctx).ctx.error_code = SQLITE_ERR_INVALID_ARG ∧
    ((runPrim p o st ctx).ctx.error_msg).isSome = true ∧
    (runPrim p o st ctx).calls = [] ∧
    (runPrim p o st ctx).stack <:+ st
  fallSuccessHead : fallible p = true → (runPrim p o st ctx).ret = 0 →
    ((runPrim p o st ctx).stack).head? = some (QdVal.vInt SQLITE_ERR_OK)
  fallSuccessDrop : fallible p = true → (runPrim p o st ctx).ret = 0 →
    ((runPrim p o st ctx).stack).drop (1 + resCount p) = st.drop (arity p)
  cleanupShape : cleanupPrim p = true →
    (runPrim p o st ctx).ret = 0 ∧ (runPrim p o st ctx).stack <:+ st
  accessorShape : fallible p = false → cleanupPrim p = false →
    (runPrim p o st ctx).ret = 0 ∧
    (runPrim p o st ctx).ctx = ctx ∧
    ((runPrim p o st ctx).stack).head?.isSome = true ∧
    ((runPrim p o st ctx).stack).tail <:+ st ∧
    (transportOK p st = false →
      ((runPrim p o st ctx).stack).head? = some (accessorDefault p))

attribute [simp] SQLITE_ERR_OK SQLITE_ERR_OPEN SQLITE_ERR_EXEC SQLITE_ERR_PREPARE
attribute [simp] SQLITE_ERR_BIND SQLITE_ERR_STEP SQLITE_ERR_INVALID_ARG
attribute [simp] SQLITE_OK SQLITE_ROW SQLITE_DONE
attribute [simp] set_error_msg set_sqlite_error popPtr popInt popStr popFloat invalidArg
attribute [simp] execFailMsg txnPrim runPrim
attribute [simp] usr_sqlite_open usr_sqlite_close usr_sqlite_exec usr_sqlite_prepare
attribute [simp] usr_sqlite_bind_text usr_sqlite_bind_int usr_sqlite_bind_float
attribute [simp] usr_sqlite_bind_null usr_sqlite_step usr_sqlite_reset usr_sqlite_finalize
attribute [simp] usr_sqlite_column_count usr_sqlite_column_name usr_sqlite_column_type
attribute [simp] usr_sqlite_column_int usr_sqlite_column_float usr_sqlite_column_text
attribute [simp] usr_sqlite_last_insert_rowid usr_sqlite_changes
attribute [simp] usr_sqlite_begin usr_sqlite_commit usr_sqlite_rollback
attribute [simp] fallible cleanupPrim transportOK nativeOK arity resCount accessorDefault
attribute [simp] sfx0 sfx1 sfx2 sfx3

/-- Core behaviour of `usr_sqlite_close`. -/
theorem core_close (o : NativeOracle) (st : List QdVal) (ctx : ErrCtx) :
    PrimCore Prim.pClose o st ctx := by
  rcases st with _ | ⟨v, st⟩
  · constructor <;> simp
  · rcases v with i | b | s | q <;> constructor <;> simp

/-- Core behaviour of `usr_sqlite_exec`. -/
theorem core_exec (o : NativeOracle) (st : List QdVal) (ctx : ErrCtx) :
    PrimCore Prim.pExec o st ctx := by
  rcases st with _ | ⟨v1, st1⟩
  · constructor <;> simp
  · rcases v1 with i1 | b1 | s1 | q1
    · constructor <;> simp
    · constructor <;> simp
    · constructor <;> simp
    · rcases st1 with _ | ⟨v2, st2⟩
      · constructor <;> simp
      · rcases v2 with i2 | b2 | s2 | q2
        · constructor <;> simp
        · constructor <;> simp
        · rcases hrc : o.sqlite3_exec q1 s2 with ⟨rc, em⟩
          by_cases h : rc = 0 <;> constructor <;> simp_all
        · constructor <;> simp

/-- Core behaviour of `usr_sqlite_open`. -/
theorem core_open (o : NativeOracle) (st : List QdVal) (ctx : ErrCtx) :
    PrimCore Prim.pOpen o st ctx := by
  rcases st with _ | ⟨v, st⟩
  · constructor <;> simp
  · rcases v with i | b | s | q
    · constructor <;> simp
    · constructor <;> simp
    · rcases hrc : o.sqlite3_open s with ⟨rc, db⟩
      by_cases h : rc = 0 <;> constructor <;> simp_all
    · constructor <;> simp

/-- Core behaviour of `usr_sqlite_prepare`. -/
theorem core_prepare (o : NativeOracle) (st : List QdVal) (ctx : ErrCtx) :
    PrimCore Prim.pPrepare o st ctx := by
  rcases st with _ | ⟨v1, st1⟩
  · constructor <;> simp
  · rcases v1 with i1 | b1 | s1 | q1
    · constructor <;> simp
    · constructor <;> simp
    · constructor <;> simp
    · rcases st1 with _ | ⟨v2, st2⟩
      · constructor <;> simp
      · rcases v2 with i2 | b2 | s2 | q2
        · constructor <;> simp
        · constructor <;> simp
        · rcases hrc : o.sqlite3_prepare_v2 q1 s2 with ⟨rc, stmt⟩
          by_cases h : rc = 0 <;> constructor <;> simp_all
        · constructor <;> simp

/-- Core behaviour of `usr_sqlite_bind_text`. -/
theorem core_bind_text (o : NativeOracle) (st : List QdVal) (ctx : ErrCtx) :
    PrimCore Prim.pBindText o st ctx := by
  rcases st with _ | ⟨v1, st1⟩
  · constructor <;> simp
  · rcases v1 with i1 | b1 | s1 | q1
    · constructor <;> simp
    · constructor <;> simp
    · constructor <;> simp
    · rcases st1 with _ | ⟨v2, st2⟩
      · constructor <;> simp
      · rcases v2 with i2 | b2 | s2 | q2
        case cons.vPtr.cons.vInt =>
          rcases st2 with _ | ⟨v3, st3⟩
          · constructor <;> simp
          · rcases v3 with i3 | b3 | s3 | q3
            · constructor <;> simp
            · constructor <;> simp
            · by_cases h : o.sqlite3_bind_text q1 (toInt32 i2) s3 s3.length = 0 <;>
                constructor <;> simp_all
            · constructor <;> simp
        all_goals constructor <;> simp

/-- Core behaviour of `usr_sqlite_bind_int`. -/
theorem core_bind_int (o : NativeOracle) (st : List QdVal) (ctx : ErrCtx) :
    PrimCore Prim.pBindInt o st ctx := by
  rcases st with _ | ⟨v1, st1⟩
  · constructor <;> simp
  · rcases v1 with i1 | b1 | s1 | q1
    · constructor <;> simp
    · constructor <;> simp
    · constructor <;> simp
    · rcases st1 with _ | ⟨v2, st2⟩
      · constructor <;> simp
      · rcases v2 with i2 | b2 | s2 | q2
        case cons.vPtr.cons.vInt =>
          rcases st2 with _ | ⟨v3, st3⟩
          · constructor <;> simp
          · rcases v3 with i3 | b3 | s3 | q3
            · by_cases h : o.sqlite3_bind_int64 q1 (toInt32 i2) i3 = 0 <;>
                constructor <;> simp_all
            · constructor <;> simp
            · constructor <;> simp
            · constructor <;> simp
        all_goals constructor <;> simp

/-- Core behaviour of `usr_sqlite_bind_float`. -/
theorem core_bind_float (o : NativeOracle) (st : List QdVal) (ctx : ErrCtx) :
    PrimCore Prim.pBindFloat o st ctx := by
  rcases st with _ | ⟨v1, st1⟩
  · constructor <;> simp
  · rcases v1 with i1 | b1 | s1 | q1
    · constructor <;> simp
    · constructor <;> simp
    · constructor <;> simp
    · rcases st1 with _ | ⟨v2, st2⟩
      · constructor <;> simp
      · rcases v2 with i2 | b2 | s2 | q2
        case cons.vPtr.cons.vInt =>
          rcases st2 with _ | ⟨v3, st3⟩
          · constructor <;> simp
          · rcases v3 with i3 | b3 | s3 | q3
            · constructor <;> simp
            · by_cases h : o.sqlite3_bind_double q1 (toInt32 i2) b3 = 0 <;>
                constructor <;> simp_all
            · constructor <;> simp
            · constructor <;> simp
        all_goals constructor <;> simp

/-- Core behaviour of `usr_sqlite_bind_null`. -/
theorem core_bind_null (o : NativeOracle) (st : List QdVal) (ctx : ErrCtx) :
    PrimCore Prim.pBindNull o st ctx := by
  rcases st with _ | ⟨v1, st1⟩
  · constructor <;> simp
  · rcases v1 with i1 | b1 | s1 | q1
    · constructor <;> simp
    · constructor <;> simp
    · constructor <;> simp
    · rcases st1 with _ | ⟨v2, st2⟩
      · constructor <;> simp
      · rcases v2 with i2 | b2 | s2 | q2
        · by_cases h : o.sqlite3_bind_null q1 (toInt32 i2) = 0 <;>
            constructor <;> simp_all
        · constructor <;> simp
        · constructor <;> simp
        · constructor <;> simp

/-- Core behaviour of `usr_sqlite_step`. -/
theorem core_step (o : NativeOracle) (st : List QdVal) (ctx : ErrCtx) :
    PrimCore Prim.pStep o st ctx := by
  rcases st with _ | ⟨v, st⟩
  · constructor <;> simp
  · rcases v with i | b | s | q
    · constructor <;> simp
    · constructor <;> simp
    · constructor <;> simp
    · by_cases h1 : o.sqlite3_step q = 100
      · constructor <;> simp_all
      · by_cases h2 : o.sqlite3_step q = 101 <;> constructor <;> simp_all

/-- Core behaviour of `usr_sqlite_reset`. -/
theorem core_reset (o : NativeOracle) (st : List QdVal) (ctx : ErrCtx) :
    PrimCore Prim.pReset o st ctx := by
  rcases st with _ | ⟨v, st⟩
  · constructor <;> simp
  · rcases v with i | b | s | q <;> constructor <;> simp

/-- Core behaviour of `usr_sqlite_finalize`. -/
theorem core_finalize (o : NativeOracle) (st : List QdVal) (ctx : ErrCtx) :
    PrimCore Prim.pFinalize o st ctx := by
  rcases st with _ | ⟨v, st⟩
  · constructor <;> simp
  · rcases v with i | b | s | q <;> constructor <;> simp

/-- Core behaviour of `usr_sqlite_column_count`. -/
theorem core_column_count (o : NativeOracle) (st : List QdVal) (ctx : ErrCtx) :
    PrimCore Prim.pColumnCount o st ctx := by
  rcases st with _ | ⟨v, st⟩
  · constructor <;> simp
  · rcases v with i | b | s | q <;> constructor <;> simp

/-- Core behaviour of `usr_sqlite_column_name`. -/
theorem core_column_name (o : NativeOracle) (st : List QdVal) (ctx : ErrCtx) :
    PrimCore Prim.pColumnName o st ctx := by
  rcases st with _ | ⟨v1, st1⟩
  · constructor <;> simp
  · rcases v1 with i1 | b1 | s1 | q1
    · constructor <;> simp
    · constructor <;> simp
    · constructor <;> simp
    · rcases st1 with _ | ⟨v2, st2⟩
      · constructor <;> simp
      · rcases v2 with i2 | b2 | s2 | q2 <;> constructor <;> simp

/-- Core behaviour of `usr_sqlite_column_type`. -/
theorem core_column_type (o : NativeOracle) (st : List QdVal) (ctx : ErrCtx) :
    PrimCore Prim.pColumnType o st ctx := by
  rcases st with _ | ⟨v1, st1⟩
  · constructor <;> simp
  · rcases v1 with i1 | b1 | s1 | q1
    · constructor <;> simp
    · constructor <;> simp
    · constructor <;> simp
    · rcases st1 with _ | ⟨v2, st2⟩
      · constructor <;> simp
      · rcases v2 with i2 | b2 | s2 | q2 <;> constructor <;> simp

/-- Core behaviour of `usr_sqlite_column_int`. -/
theorem core_column_int (o : NativeOracle) (st : List QdVal) (ctx : ErrCtx) :
    PrimCore Prim.pColumnInt o st ctx := by
  rcases st with _ | ⟨v1, st1⟩
  · constructor <;> simp
  · rcases v1 with i1 | b1 | s1 | q1
    · constructor <;> simp
    · constructor <;> simp
    · constructor <;> simp
    · rcases st1 with _ | ⟨v2, st2⟩
      · constructor <;> simp
      · rcases v2 with i2 | b2 | s2 | q2 <;> constructor <;> simp

/-- Core behaviour of `usr_sqlite_column_float`. -/
theorem core_column_float (o : NativeOracle) (st : List QdVal) (ctx : ErrCtx) :
    PrimCore Prim.pColumnFloat o st ctx := by
  rcases st with _ | ⟨v1, st1⟩
  · constructor <;> simp
  · rcases v1 with i1 | b1 | s1 | q1
    · constructor <;> simp
    · constructor <;> simp
    · constructor <;> simp
    · rcases st1 with _ | ⟨v2, st2⟩
      · constructor <;> simp
      · rcases v2 with i2 | b2 | s2 | q2 <;> constructor <;> simp

/-- Core behaviour of `usr_sqlite_column_text`. -/
theorem core_column_text (o : NativeOracle) (st : List QdVal) (ctx : ErrCtx) :
    PrimCore Prim.pColumnText o st ctx := by
  rcases st with _ | ⟨v1, st1⟩
  · constructor <;> simp
  · rcases v1 with i1 | b1 | s1 | q1
    · constructor <;> simp
    · constructor <;> simp
    · constructor <;> simp
    · rcases st1 with _ | ⟨v2, st2⟩
      · constructor <;> simp
      · rcases v2 with i2 | b2 | s2 | q2
        case vInt =>
          rcases ht : o.sqlite3_column_text q1 (toInt32 i2) with _ | t <;>
            constructor <;> simp_all
        all_goals constructor <;> simp

/-- Core behaviour of `usr_sqlite_last_insert_rowid`. -/
theorem core_last_insert_rowid (o : NativeOracle) (st : List QdVal) (ctx : ErrCtx) :
    PrimCore Prim.pLastInsertRowid o st ctx := by
  rcases st with _ | ⟨v, st⟩
  · constructor <;> simp
  · rcases v with i | b | s | q <;> constructor <;> simp

/-- Core behaviour of `usr_sqlite_changes`. -/
theorem core_changes (o : NativeOracle) (st : List QdVal) (ctx : ErrCtx) :
    PrimCore Prim.pChanges o st ctx := by
  rcases st with _ | ⟨v, st⟩
  · constructor <;> simp
  · rcases v with i | b | s | q <;> constructor <;> simp

/-- Core behaviour of `usr_sqlite_begin`. -/
theorem core_begin (o : NativeOracle) (st : List QdVal) (ctx : ErrCtx) :
    PrimCore Prim.pBegin o st ctx := by
  rcases st with _ | ⟨v, st⟩
  · constructor <;> simp
  · rcases v with i | b | s | q
    · constructor <;> simp
    · constructor <;> simp
    · constructor <;> simp
    · rcases hrc : o.sqlite3_exec q "BEGIN TRANSACTION" with ⟨rc, em⟩
      by_cases h : rc = 0 <;> constructor <;> simp_all

/-- Core behaviour of `usr_sqlite_commit`. -/
theorem core_commit (o : NativeOracle) (st : List QdVal) (ctx : ErrCtx) :
    PrimCore Prim.pCommit o st ctx := by
  rcases st with _ | ⟨v, st⟩
  · constructor <;> simp
  · rcases v with i | b | s | q
    · constructor <;> simp
    · constructor <;> simp
    · constructor <;> simp
    · rcases hrc : o.sqlite3_exec q "COMMIT" with ⟨rc, em⟩
      by_cases h : rc = 0 <;> constructor <;> simp_all

/-- Core behaviour of `usr_sqlite_rollback`. -/
theorem core_rollback (o : NativeOracle) (st : List QdVal) (ctx : ErrCtx) :
    PrimCore Prim.pRollback o st ctx := by
  rcases st with _ | ⟨v, st⟩
  · constructor <;> simp
  · rcases v with i | b | s | q
    · constructor <;> simp
    · constructor <;> simp
    · constructor <;> simp
    · rcases hrc : o.sqlite3_exec q "ROLLBACK" with ⟨rc, em⟩
      by_cases h : rc = 0 <;> constructor <;> simp_all

/-- Every primitive satisfies its behavioural core on every input. -/
theorem primCore (p : Prim) (o : NativeOracle) (st : List QdVal) (ctx : ErrCtx) :
    PrimCore p o st ctx := by
  cases p
  · exact core_open o st ctx
  · exact core_close o st ctx
  · exact core_exec o st ctx
  · exact core_prepare o st ctx
  · exact core_bind_text o st ctx
  · exact core_bind_int o st ctx
  · exact core_bind_float o st ctx
  · exact core_bind_null o st ctx
  · exact core_step o st ctx
  · exact core_reset o st ctx
  · exact core_finalize o st ctx
  · exact core_column_count o st ctx
  · exact core_column_name o st ctx
  · exact core_column_type o st ctx
  · exact core_column_int o st ctx
  · exact core_column_float o st ctx
  · exact core_column_text o st ctx
  · exact core_last_insert_rowid o st ctx
  · exact core_changes o st ctx
  · exact core_begin o st ctx
  · exact core_commit o st ctx
  · exact core_rollback o st ctx

/-- Kind test: is the operand a pointer? -/
def isPtrV : QdVal → Bool
  | QdVal.vPtr _ => true
  | _ => false

/-- Kind test: is the operand an integer? -/
def isIntV : QdVal → Bool
  | QdVal.vInt _ => true
  | _ => false

/-- Kind test: is the operand a string? -/
def isStrV : QdVal → Bool
  | QdVal.vStr _ => true
  | _ => false

/-- Kind test: is the operand a float? -/
def isFloatV : QdVal → Bool
  | QdVal.vFloat _ => true
  | _ => false

attribute [simp] isPtrV isIntV isStrV isFloatV

/-- An initial error context: code `0`, no message. -/
def ctx0 : ErrCtx := { error_code := 0, error_msg := none }

/-- A concrete engine behaviour on which every native call succeeds. -/
def oracleOK : NativeOracle where
  sqlite3_open := fun _ => (0, 1)
  sqlite3_errmsg := fun _ => "not an error"
  sqlite3_exec := fun _ _ => (0, none)
  sqlite3_prepare_v2 := fun _ _ => (0, 2)
  sqlite3_bind_text := fun _ _ _ _ => 0
  sqlite3_bind_int64 := fun _ _ _ => 0
  sqlite3_bind_double := fun _ _ _ => 0
  sqlite3_bind_null := fun _ _ => 0
  sqlite3_step := fun _ => 101
  sqlite3_column_count := fun _ => 1
  sqlite3_column_name := fun _ _ => some "a"
  sqlite3_column_type := fun _ _ => 1
  sqlite3_column_int64 := fun _ _ => 42
  sqlite3_column_double := fun _ _ => 0
  sqlite3_column_text := fun _ _ => some "x"
  sqlite3_column_bytes := fun _ _ => 1
  sqlite3_last_insert_rowid := fun _ => 1
  sqlite3_changes := fun _ => 0

/-- A concrete engine behaviour on which every native call fails. -/
def oracleFail : NativeOracle where
  sqlite3_open := fun _ => (14, 3)
  sqlite3_errmsg := fun _ => "constraint failed"
  sqlite3_exec := fun _ _ => (1, some "syntax error")
  sqlite3_prepare_v2 := fun _ _ => (1, 0)
  sqlite3_bind_text := fun _ _ _ _ => 25
  sqlite3_bind_int64 := fun _ _ _ => 25
  sqlite3_bind_double := fun _ _ _ => 25
  sqlite3_bind_null := fun _ _ => 25
  sqlite3_step := fun _ => 19
  sqlite3_column_count := fun _ => 0
  sqlite3_column_name := fun _ _ => none
  sqlite3_column_type := fun _ _ => 5
  sqlite3_column_int64 := fun _ _ => 0
  sqlite3_column_double := fun _ _ => 0
  sqlite3_column_text := fun _ _ => none
  sqlite3_column_bytes := fun _ _ => 0
  sqlite3_last_insert_rowid := fun _ => 0
  sqlite3_changes := fun _ => 0

/-- C1 counterexample: `usr_sqlite_close` is a primitive whose operand pop
can fail (here: empty stack), yet it returns `0`, not `INVALID_ARGUMENT`,
and stores no code `7` in the Error Context — refuting the claim for
"every primitive". -/
theorem c1_counterexample :
    transportOK Prim.pClose [] = false ∧
    (runPrim Prim.pClose oracleOK [] ctx0).ret = 0 ∧
    (runPrim Prim.pClose oracleOK [] ctx0).ret ≠ SQLITE_ERR_INVALID_ARG ∧
    (runPrim Prim.pClose oracleOK [] ctx0).ctx.error_code ≠ SQLITE_ERR_INVALID_ARG := by
  decide

/-- C1 (amended to the fallible primitives): for every fallible primitive
(Open, Exec, Prepare, Bind*, Step, Reset, Begin, Commit, Rollback) and
every stack input, if an operand pop yields a wrong kind or the stack is
exhausted, the primitive returns `INVALID_ARGUMENT` (7), stores an error
message and the code 7 in the Error Context, makes no native SQLite call,
and pushes no values onto the stack. -/
theorem c1_amended (p : Prim) (o : NativeOracle) (st : List QdVal) (ctx : ErrCtx)
    (hf : fallible p = true) (ht : transportOK p st = false) :
    (runPrim p o st ctx).ret = SQLITE_ERR_INVALID_ARG ∧
    (runPrim p o st ctx).ctx.error_code = SQLITE_ERR_INVALID_ARG ∧
    ((runPrim p o st ctx).ctx.error_msg).isSome = true ∧
    (runPrim p o st ctx).calls = [] ∧
    (runPrim p o st ctx).stack <:+ st :=
  (primCore p o st ctx).transportFail hf ht

/-- C1 witness: `usr_sqlite_exec` invoked on an empty stack. -/
theorem c1_witness :
    (runPrim Prim.pExec oracleOK [] ctx0).ret = SQLITE_ERR_INVALID_ARG ∧
    (runPrim Prim.pExec oracleOK [] ctx0).ctx.error_code = SQLITE_ERR_INVALID_ARG ∧
    ((runPrim Prim.pExec oracleOK [] ctx0).ctx.error_msg).isSome = true ∧
    (runPrim Prim.pExec oracleOK [] ctx0).calls = [] ∧
    (runPrim Prim.pExec oracleOK [] ctx0).stack <:+ [] :=
  c1_amended Prim.pExec oracleOK [] ctx0 (by decide) (by decide)

/-- C2 counterexample: `usr_sqlite_exec` on a transport-valid stack whose
native call fails returns `3` (`EXEC_ERROR`), not `0` — refuting the claim
that the C return value is `0` whenever there is no transport-level
failure. -/
theorem c2_counterexample :
    transportOK Prim.pExec [QdVal.vPtr 5, QdVal.vStr "DELETE FROM t"] = true ∧
    (runPrim Prim.pExec oracleFail [QdVal.vPtr 5, QdVal.vStr "DELETE FROM t"] ctx0).ret = 3 := by
  decide

/-- C2 (amended): the C return value is `0` exactly when the primitive is
non-fallible, or both its operand pops and its native call succeed; a
native-tier failure of a fallible primitive yields a non-zero return, not
`0`. -/
theorem c2_amended (p : Prim) (o : NativeOracle) (st : List QdVal) (ctx : ErrCtx) :
    (runPrim p o st ctx).ret = 0 ↔
      (fallible p = false ∨ (transportOK p st = true ∧ nativeOK p o st = true)) :=
  (primCore p o st ctx).retIff

/-- C2 witness: a transport-valid, native-successful `usr_sqlite_exec`
returns `0`. -/
theorem c2_witness :
    (runPrim Prim.pExec oracleOK [QdVal.vPtr 5, QdVal.vStr "CREATE TABLE t(a)"] ctx0).ret = 0 :=
  (c2_amended Prim.pExec oracleOK [QdVal.vPtr 5, QdVal.vStr "CREATE TABLE t(a)"] ctx0).mpr
    (by decide)

/-- C3: on a well-typed Step invocation, `SQLITE_ROW` pushes `has_row = 1`
then `OK` and returns `0`; `SQLITE_DONE` pushes `has_row = 0` then `OK`
and returns `0`; every other native outcome pushes nothing, stores
`STEP_ERROR` (6), and returns `6`, irrespective of which native sub-reason
occurred. -/
theorem c3_step (o : NativeOracle) (stmt : Nat) (rest : List QdVal) (ctx : ErrCtx) :
    (o.sqlite3_step stmt = SQLITE_ROW →
      runPrim Prim.pStep o (QdVal.vPtr stmt :: rest) ctx =
        { ret := 0
          stack := QdVal.vInt SQLITE_ERR_OK :: QdVal.vInt 1 :: rest
          ctx := ctx
          calls := [NativeCall.stepCall stmt] }) ∧
    (o.sqlite3_step stmt = SQLITE_DONE →
      runPrim Prim.pStep o (QdVal.vPtr stmt :: rest) ctx =
        { ret := 0
          stack := QdVal.vInt SQLITE_ERR_OK :: QdVal.vInt 0 :: rest
          ctx := ctx
          calls := [NativeCall.stepCall stmt] }) ∧
    (o.sqlite3_step stmt ≠ SQLITE_ROW → o.sqlite3_step stmt ≠ SQLITE_DONE →
      runPrim Prim.pStep o (QdVal.vPtr stmt :: rest) ctx =
        { ret := SQLITE_ERR_STEP
          stack := rest
          ctx := { error_code := SQLITE_ERR_STEP
                   error_msg := some "sqlite::step: execution failed" }
          calls := [NativeCall.stepCall stmt] }) := by
  by_cases h1 : o.sqlite3_step stmt = 100
  · refine ⟨?_, ?_, ?_⟩ <;> intros <;> simp_all
  · by_cases h2 : o.sqlite3_step stmt = 101 <;> refine ⟨?_, ?_, ?_⟩ <;> intros <;> simp_all

/-- C3 witness: a completed statement (native `SQLITE_DONE`) pushes
`has_row = 0` then `OK`. -/
theorem c3_witness :
    runPrim Prim.pStep oracleOK [QdVal.vPtr 7] ctx0 =
      { ret := 0
        stack := [QdVal.vInt SQLITE_ERR_OK, QdVal.vInt 0]
        ctx := ctx0
        calls := [NativeCall.stepCall 7] } :=
  (c3_step oracleOK 7 [] ctx0).2.1 (by decide)

/-- C4 counterexample: on a native bind failure, `usr_sqlite_bind_int`
stores the fixed text "sqlite::bind_int: bind failed", not the native
engine's diagnostic text prefixed with the operation name — refuting the
message half of the claim for the Bind* operations. -/
theorem c4_counterexample :
    (runPrim Prim.pBindInt oracleFail
        [QdVal.vPtr 7, QdVal.vInt 1, QdVal.vInt 42] ctx0).ret = SQLITE_ERR_BIND ∧
    (runPrim Prim.pBindInt oracleFail
        [QdVal.vPtr 7, QdVal.vInt 1, QdVal.vInt 42] ctx0).ctx.error_msg =
      some "sqlite::bind_int: bind failed" ∧
    (runPrim Prim.pBindInt oracleFail
        [QdVal.vPtr 7, QdVal.vInt 1, QdVal.vInt 42] ctx0).ctx.error_msg ≠
      some ("sqlite::bind_int: " ++ oracleFail.sqlite3_errmsg 7) := by
  decide

/-- C4 (amended): on a native-tier failure the stored Error Context code is
the operation-specific one (`OPEN_ERROR` for Open; `EXEC_ERROR` for Exec,
Begin, Commit, Rollback; `PREPARE_ERROR` for Prepare; `BIND_ERROR` for
Bind*; `STEP_ERROR` for Step), on every native-failure path.  The stored
message is the engine's own diagnostic text prefixed with the operation
name for Open, Exec, Prepare and the transaction primitives (when the
engine supplies text, and for Open/Prepare a non-null handle); the Bind*
primitives and Step instead store a fixed operation-named text that does
not carry the native diagnostic. -/
theorem c4_amended (o : NativeOracle) (ctx : ErrCtx) :
    (∀ path rest, (o.sqlite3_open path).1 ≠ SQLITE_OK →
      (runPrim Prim.pOpen o (QdVal.vStr path :: rest) ctx).ctx.error_code =
        SQLITE_ERR_OPEN ∧
      ((o.sqlite3_open path).2 ≠ 0 →
        (runPrim Prim.pOpen o (QdVal.vStr path :: rest) ctx).ctx.error_msg =
          some ("sqlite::open: " ++ o.sqlite3_errmsg (o.sqlite3_open path).2))) ∧
    (∀ db sql rest, (o.sqlite3_exec db sql).1 ≠ SQLITE_OK →
      (runPrim Prim.pExec o (QdVal.vPtr db :: QdVal.vStr sql :: rest) ctx).ctx.error_code =
        SQLITE_ERR_EXEC ∧
      (∀ m, (o.sqlite3_exec db sql).2 = some m →
        (runPrim Prim.pExec o (QdVal.vPtr db :: QdVal.vStr sql :: rest) ctx).ctx.error_msg =
          some ("sqlite::exec: " ++ m))) ∧
    (∀ db sql rest, (o.sqlite3_prepare_v2 db sql).1 ≠ SQLITE_OK →
      (runPrim Prim.pPrepare o
          (QdVal.vPtr db :: QdVal.vStr sql :: rest) ctx).ctx.error_code =
        SQLITE_ERR_PREPARE ∧
      (db ≠ 0 →
        (runPrim Prim.pPrepare o
            (QdVal.vPtr db :: QdVal.vStr sql :: rest) ctx).ctx.error_msg =
          some ("sqlite::prepare: " ++ o.sqlite3_errmsg db))) ∧
    (∀ s i v rest, o.sqlite3_bind_text s (toInt32 i) v v.length ≠ SQLITE_OK →
      (runPrim Prim.pBindText o
          (QdVal.vPtr s :: QdVal.vInt i :: QdVal.vStr v :: rest) ctx).ctx.error_msg =
        some "sqlite::bind_text: bind failed" ∧
      (runPrim Prim.pBindText o
          (QdVal.vPtr s :: QdVal.vInt i :: QdVal.vStr v :: rest) ctx).ctx.error_code =
        SQLITE_ERR_BIND) ∧
    (∀ s i v rest, o.sqlite3_bind_int64 s (toInt32 i) v ≠ SQLITE_OK →
      (runPrim Prim.pBindInt o
          (QdVal.vPtr s :: QdVal.vInt i :: QdVal.vInt v :: rest) ctx).ctx.error_msg =
        some "sqlite::bind_int: bind failed" ∧
      (runPrim Prim.pBindInt o
          (QdVal.vPtr s :: QdVal.vInt i :: QdVal.vInt v :: rest) ctx).ctx.error_code =
        SQLITE_ERR_BIND) ∧
    (∀ s i b rest, o.sqlite3_bind_double s (toInt32 i) b ≠ SQLITE_OK →
      (runPrim Prim.pBindFloat o
          (QdVal.vPtr s :: QdVal.vInt i :: QdVal.vFloat b :: rest) ctx).ctx.error_msg =
        some "sqlite::bind_float: bind failed" ∧
      (runPrim Prim.pBindFloat o
          (QdVal.vPtr s :: QdVal.vInt i :: QdVal.vFloat b :: rest) ctx).ctx.error_code =
        SQLITE_ERR_BIND) ∧
    (∀ s i rest, o.sqlite3_bind_null s (toInt32 i) ≠ SQLITE_OK →
      (runPrim Prim.pBindNull o (QdVal.vPtr s :: QdVal.vInt i :: rest) ctx).ctx.error_msg =
        some "sqlite::bind_null: bind failed" ∧
      (runPrim Prim.pBindNull o (QdVal.vPtr s :: QdVal.vInt i :: rest) ctx).ctx.error_code =
        SQLITE_ERR_BIND) ∧
    (∀ s rest, o.sqlite3_step s ≠ SQLITE_ROW → o.sqlite3_step s ≠ SQLITE_DONE →
      (runPrim Prim.pStep o (QdVal.vPtr s :: rest) ctx).ctx.error_msg =
        some "sqlite::step: execution failed" ∧
      (runPrim Prim.pStep o (QdVal.vPtr s :: rest) ctx).ctx.error_code = SQLITE_ERR_STEP) ∧
    (∀ db rest, (o.sqlite3_exec db "BEGIN TRANSACTION").1 ≠ SQLITE_OK →
      (runPrim Prim.pBegin o (QdVal.vPtr db :: rest) ctx).ctx.error_code =
        SQLITE_ERR_EXEC ∧
      (∀ m, (o.sqlite3_exec db "BEGIN TRANSACTION").2 = some m →
        (runPrim Prim.pBegin o (QdVal.vPtr db :: rest) ctx).ctx.error_msg =
          some ("sqlite::begin: " ++ m))) ∧
    (∀ db rest, (o.sqlite3_exec db "COMMIT").1 ≠ SQLITE_OK →
      (runPrim Prim.pCommit o (QdVal.vPtr db :: rest) ctx).ctx.error_code =
        SQLITE_ERR_EXEC ∧
      (∀ m, (o.sqlite3_exec db "COMMIT").2 = some m →
        (runPrim Prim.pCommit o (QdVal.vPtr db :: rest) ctx).ctx.error_msg =
          some ("sqlite::commit: " ++ m))) ∧
    (∀ db rest, (o.sqlite3_exec db "ROLLBACK").1 ≠ SQLITE_OK →
      (runPrim Prim.pRollback o (QdVal.vPtr db :: rest) ctx).ctx.error_code =
        SQLITE_ERR_EXEC ∧
      (∀ m, (o.sqlite3_exec db "ROLLBACK").2 = some m →
        (runPrim Prim.pRollback o (QdVal.vPtr db :: rest) ctx).ctx.error_msg =
          some ("sqlite::rollback: " ++ m))) := by
  refine ⟨?_, ?_, ?_, ?_, ?_, ?_, ?_, ?_, ?_, ?_, ?_⟩
  · intro path rest h1
    rcases hr : o.sqlite3_open path with ⟨rc, db⟩
    by_cases h2 : db = 0 <;> simp_all
  · intro db sql rest h1
    rcases hr : o.sqlite3_exec db sql with ⟨rc, em⟩
    rcases em with _ | m <;> simp_all
  · intro db sql rest h1
    rcases hr : o.sqlite3_prepare_v2 db sql with ⟨rc, stmt⟩
    by_cases h2 : db = 0 <;> simp_all
  · intro s i v rest h1
    simp_all
  · intro s i v rest h1
    simp_all
  · intro s i b rest h1
    simp_all
  · intro s i rest h1
    simp_all
  · intro s rest h1 h2
    simp_all
  · intro db rest h1
    rcases hr : o.sqlite3_exec db "BEGIN TRANSACTION" with ⟨rc, em⟩
    rcases em with _ | m <;> simp_all
  · intro db rest h1
    rcases hr : o.sqlite3_exec db "COMMIT" with ⟨rc, em⟩
    rcases em with _ | m <;> simp_all
  · intro db rest h1
    rcases hr : o.sqlite3_exec db "ROLLBACK" with ⟨rc, em⟩
    rcases em with _ | m <;> simp_all

/-- C4 witness: a failing native exec stores code `EXEC_ERROR` and the
prefixed native text. -/
theorem c4_witness :
    (runPrim Prim.pExec oracleFail [QdVal.vPtr 5, QdVal.vStr "X"] ctx0).ctx.error_code =
      SQLITE_ERR_EXEC ∧
    (runPrim Prim.pExec oracleFail [QdVal.vPtr 5, QdVal.vStr "X"] ctx0).ctx.error_msg =
      some ("sqlite::exec: " ++ "syntax error") :=
  have h := (c4_amended oracleFail ctx0).2.1 5 "X" [] (by decide)
  ⟨h.1, h.2 "syntax error" (by decide)⟩

/-- C5 counterexample: `usr_sqlite_column_type` invoked on an empty stack
pushes the degraded default `0`, which is not a member of the enumeration
`{INTEGER=1, FLOAT=2, TEXT=3, BLOB=4, NULL=5}` — refuting the claim for
"every invocation". -/
theorem c5_counterexample :
    (runPrim Prim.pColumnType oracleOK [] ctx0).stack = [QdVal.vInt 0] ∧
    ¬ (1 ≤ (0 : Int) ∧ (0 : Int) ≤ 5) := by
  decide

/-- C5 (amended): on a well-typed invocation, `usr_sqlite_column_type`
pushes the native engine's type code unchanged, so under the native
engine's contract that its codes are `{INTEGER=1, FLOAT=2, TEXT=3, BLOB=4,
NULL=5}` the pushed value lies in that enumeration (the numbering
coincides with the native one rather than being remapped); on an invalid
operand the degraded default `0` is pushed instead. -/
theorem c5_amended (o : NativeOracle) (ctx : ErrCtx) :
    (∀ stmt idx rest, 1 ≤ o.sqlite3_column_type stmt (toInt32 idx) →
      o.sqlite3_column_type stmt (toInt32 idx) ≤ 5 →
      (runPrim Prim.pColumnType o
          (QdVal.vPtr stmt :: QdVal.vInt idx :: rest) ctx).stack =
        QdVal.vInt (o.sqlite3_column_type stmt (toInt32 idx)) :: rest) ∧
    (∀ st, transportOK Prim.pColumnType st = false →
      ((runPrim Prim.pColumnType o st ctx).stack).head? = some (QdVal.vInt 0)) := by
  constructor
  · intro stmt idx rest h1 h2
    simp
  · intro st ht
    have h := (core_column_type o st ctx).accessorShape rfl rfl
    simpa using h.2.2.2.2 ht

/-- C5 witness: with a native engine reporting `SQLITE_INTEGER` (1), the
pushed value is `1`, inside the enumeration. -/
theorem c5_witness :
    (runPrim Prim.pColumnType oracleOK [QdVal.vPtr 2, QdVal.vInt 0] ctx0).stack =
      QdVal.vInt (oracleOK.sqlite3_column_type 2 (toInt32 0)) :: [] :=
  (c5_amended oracleOK ctx0).1 2 0 [] (by decide) (by decide)

/-- C6: a fallible primitive that succeeds leaves `OK` (1) on top of the
stack — the first value a caller pops — with its result values directly
beneath, above the untouched remainder of the input stack; a cleanup
primitive pushes nothing; a read accessor pushes exactly one value (its
result) and no status code. -/
theorem c6_result_encoding (p : Prim) (o : NativeOracle) (st : List QdVal) (ctx : ErrCtx) :
    (fallible p = true → (runPrim p o st ctx).ret = 0 →
      ((runPrim p o st ctx).stack).head? = some (QdVal.vInt SQLITE_ERR_OK) ∧
      ((runPrim p o st ctx).stack).drop (1 + resCount p) = st.drop (arity p)) ∧
    (cleanupPrim p = true → (runPrim p o st ctx).stack <:+ st) ∧
    (fallible p = false → cleanupPrim p = false →
      ((runPrim p o st ctx).stack).head?.isSome = true ∧
      ((runPrim p o st ctx).stack).tail <:+ st) :=
  ⟨fun hf h0 => ⟨(primCore p o st ctx).fallSuccessHead hf h0,
                 (primCore p o st ctx).fallSuccessDrop hf h0⟩,
   fun hc => ((primCore p o st ctx).cleanupShape hc).2,
   fun hf hc => ⟨((primCore p o st ctx).accessorShape hf hc).2.2.1,
                 ((primCore p o st ctx).accessorShape hf hc).2.2.2.1⟩⟩

/-- C6 witness: a successful Open pushes the handle then `OK` on top. -/
theorem c6_witness :
    ((runPrim Prim.pOpen oracleOK [QdVal.vStr ":memory:"] ctx0).stack).head? =
      some (QdVal.vInt SQLITE_ERR_OK) ∧
    ((runPrim Prim.pOpen oracleOK [QdVal.vStr ":memory:"] ctx0).stack).drop
        (1 + resCount Prim.pOpen) =
      ([QdVal.vStr ":memory:"] : List QdVal).drop (arity Prim.pOpen) :=
  (c6_result_encoding Prim.pOpen oracleOK [QdVal.vStr ":memory:"] ctx0).1
    (by decide) (by decide)

/-- C7: every read accessor and introspection primitive returns `0`, never
writes to the Error Context, pushes exactly one value and no status code,
pushes its degraded default on an invalid operand, and Column Name /
Column Text degrade to the empty string when the native engine reports a
NULL name, NULL text, or a non-positive byte count. -/
theorem c7_accessors :
    (∀ p o st ctx, fallible p = false → cleanupPrim p = false →
      (runPrim p o st ctx).ret = 0 ∧
      (runPrim p o st ctx).ctx = ctx ∧
      ((runPrim p o st ctx).stack).head?.isSome = true ∧
      ((runPrim p o st ctx).stack).tail <:+ st ∧
      (transportOK p st = false →
        ((runPrim p o st ctx).stack).head? = some (accessorDefault p))) ∧
    (∀ (o : NativeOracle) stmt idx rest ctx,
      o.sqlite3_column_name stmt (toInt32 idx) = none →
      (runPrim Prim.pColumnName o (QdVal.vPtr stmt :: QdVal.vInt idx :: rest) ctx).stack =
        QdVal.vStr "" :: rest) ∧
    (∀ (o : NativeOracle) stmt idx rest ctx,
      o.sqlite3_column_text stmt (toInt32 idx) = none ∨
        o.sqlite3_column_bytes stmt (toInt32 idx) ≤ 0 →
      (runPrim Prim.pColumnText o (QdVal.vPtr stmt :: QdVal.vInt idx :: rest) ctx).stack =
        QdVal.vStr "" :: rest) := by
  refine ⟨?_, ?_, ?_⟩
  · intro p o st ctx hf hc
    exact (primCore p o st ctx).accessorShape hf hc
  · intro o stmt idx rest ctx h
    simp_all
  · intro o stmt idx rest ctx h
    rcases h with h | h
    · simp_all
    · rcases ht : o.sqlite3_column_text stmt (toInt32 idx) with _ | t
      · simp_all
      · have hl : ¬ (0 < o.sqlite3_column_bytes stmt (toInt32 idx)) := not_lt.mpr h
        simp_all

/-- C7 witness: `usr_sqlite_column_count` on an empty stack still returns
`0`, leaves the Error Context alone, and pushes the default `0`. -/
theorem c7_witness :
    (runPrim Prim.pColumnCount oracleOK [] ctx0).ret = 0 ∧
    (runPrim Prim.pColumnCount oracleOK [] ctx0).ctx = ctx0 ∧
    ((runPrim Prim.pColumnCount oracleOK [] ctx0).stack).head?.isSome = true ∧
    ((runPrim Prim.pColumnCount oracleOK [] ctx0).stack).tail <:+ [] ∧
    (transportOK Prim.pColumnCount [] = false →
      ((runPrim Prim.pColumnCount oracleOK [] ctx0).stack).head? =
        some (accessorDefault Prim.pColumnCount)) :=
  c7_accessors.1 Prim.pColumnCount oracleOK [] ctx0 (by decide) (by decide)

/-- C8: Close and Finalize always return `0` and push nothing on any
stack input; Finalize on an invalid operand is a silent no-op (Error
Context and native call trace untouched); Close performs the native close
call exactly when the popped pointer is non-null. -/
theorem c8_cleanup :
    (∀ o st ctx, (runPrim Prim.pClose o st ctx).ret = 0 ∧
      (runPrim Prim.pClose o st ctx).stack = st.drop 1) ∧
    (∀ o st ctx, (runPrim Prim.pFinalize o st ctx).ret = 0 ∧
      (runPrim Prim.pFinalize o st ctx).stack = st.drop 1) ∧
    (∀ o st ctx, transportOK Prim.pFinalize st = false →
      (runPrim Prim.pFinalize o st ctx).ctx = ctx ∧
      (runPrim Prim.pFinalize o st ctx).calls = []) ∧
    (∀ (o : NativeOracle) q rest ctx,
      (runPrim Prim.pClose o (QdVal.vPtr q :: rest) ctx).calls =
        if q ≠ 0 then [NativeCall.closeCall q] else []) := by
  refine ⟨?_, ?_, ?_, ?_⟩
  · intro o st ctx
    rcases st with _ | ⟨v, st⟩
    · simp
    · rcases v with i | b | s | q <;> simp
  · intro o st ctx
    rcases st with _ | ⟨v, st⟩
    · simp
    · rcases v with i | b | s | q <;> simp
  · intro o st ctx ht
    rcases st with _ | ⟨v, st⟩
    · simp
    · rcases v with i | b | s | q <;> simp_all
  · intro o q rest ctx
    simp

/-- C8 witness: Finalize on an empty stack (invalid operand). -/
theorem c8_witness :
    (runPrim Prim.pFinalize oracleOK [] ctx0).ctx = ctx0 ∧
    (runPrim Prim.pFinalize oracleOK [] ctx0).calls = [] :=
  c8_cleanup.2.2.1 oracleOK [] ctx0 (by decide)

/-- C10: a non-zero C return value always equals the `error_code` the
invocation stored in the Error Context and lies in `{2,3,4,5,6,7}`; a
zero return leaves `error_code` untouched. -/
theorem c10_ret_errcode (p : Prim) (o : NativeOracle) (st : List QdVal) (ctx : ErrCtx) :
    ((runPrim p o st ctx).ret ≠ 0 →
      (runPrim p o st ctx).ctx.error_code = (runPrim p o st ctx).ret ∧
      ((runPrim p o st ctx).ret = 2 ∨ (runPrim p o st ctx).ret = 3 ∨
       (runPrim p o st ctx).ret = 4 ∨ (runPrim p o st ctx).ret = 5 ∨
       (runPrim p o st ctx).ret = 6 ∨ (runPrim p o st ctx).ret = 7)) ∧
    ((runPrim p o st ctx).ret = 0 →
      (runPrim p o st ctx).ctx.error_code = ctx.error_code) :=
  ⟨(primCore p o st ctx).errCode, (primCore p o st ctx).okKeepsCode⟩

/-- C10 witness: Open on an empty stack returns `7` and stores `7`. -/
theorem c10_witness :
    (runPrim Prim.pOpen oracleOK [] ctx0).ctx.error_code =
      (runPrim Prim.pOpen oracleOK [] ctx0).ret ∧
    ((runPrim Prim.pOpen oracleOK [] ctx0).ret = 2 ∨
     (runPrim Prim.pOpen oracleOK [] ctx0).ret = 3 ∨
     (runPrim Prim.pOpen oracleOK [] ctx0).ret = 4 ∨
     (runPrim Prim.pOpen oracleOK [] ctx0).ret = 5 ∨
     (runPrim Prim.pOpen oracleOK [] ctx0).ret = 6 ∨
     (runPrim Prim.pOpen oracleOK [] ctx0).ret = 7) :=
  (c10_ret_errcode Prim.pOpen oracleOK [] ctx0).1 (by decide)

/-- C9: every multi-operand primitive pops its operands
rightmost-stack-position-first — the native call receives the top operand
in the role named last in the `(arg1 arg2 arg3 -- …)` signature — and when
a pop detects a mismatch no further pop occurs, so every operand deeper
than the mismatching one is still on the resulting stack. -/
theorem c9_pop_order (o : NativeOracle) (ctx : ErrCtx) :
    (∀ db sql rest,
      (runPrim Prim.pExec o (QdVal.vPtr db :: QdVal.vStr sql :: rest) ctx).calls =
        [NativeCall.execCall db sql]) ∧
    (∀ v1 rest, isPtrV v1 = false →
      (runPrim Prim.pExec o (v1 :: rest) ctx).stack = rest) ∧
    (∀ db v2 rest, isStrV v2 = false →
      (runPrim Prim.pExec o (QdVal.vPtr db :: v2 :: rest) ctx).stack = rest) ∧
    (∀ db sql rest,
      (runPrim Prim.pPrepare o (QdVal.vPtr db :: QdVal.vStr sql :: rest) ctx).calls =
        [NativeCall.prepareCall db sql]) ∧
    (∀ v1 rest, isPtrV v1 = false →
      (runPrim Prim.pPrepare o (v1 :: rest) ctx).stack = rest) ∧
    (∀ db v2 rest, isStrV v2 = false →
      (runPrim Prim.pPrepare o (QdVal.vPtr db :: v2 :: rest) ctx).stack = rest) ∧
    (∀ s i v rest,
      (runPrim Prim.pBindText o
          (QdVal.vPtr s :: QdVal.vInt i :: QdVal.vStr v :: rest) ctx).calls =
        [NativeCall.bindTextCall s (toInt32 i) v v.length]) ∧
    (∀ v1 rest, isPtrV v1 = false →
      (runPrim Prim.pBindText o (v1 :: rest) ctx).stack = rest) ∧
    (∀ s v2 rest, isIntV v2 = false →
      (runPrim Prim.pBindText o (QdVal.vPtr s :: v2 :: rest) ctx).stack = rest) ∧
    (∀ s i v3 rest, isStrV v3 = false →
      (runPrim Prim.pBindText o
          (QdVal.vPtr s :: QdVal.vInt i :: v3 :: rest) ctx).stack = rest) ∧
    (∀ s i v rest,
      (runPrim Prim.pBindInt o
          (QdVal.vPtr s :: QdVal.vInt i :: QdVal.vInt v :: rest) ctx).calls =
        [NativeCall.bindIntCall s (toInt32 i) v]) ∧
    (∀ v1 rest, isPtrV v1 = false →
      (runPrim Prim.pBindInt o (v1 :: rest) ctx).stack = rest) ∧
    (∀ s v2 rest, isIntV v2 = false →
      (runPrim Prim.pBindInt o (QdVal.vPtr s :: v2 :: rest) ctx).stack = rest) ∧
    (∀ s i v3 rest, isIntV v3 = false →
      (runPrim Prim.pBindInt o
          (QdVal.vPtr s :: QdVal.vInt i :: v3 :: rest) ctx).stack = rest) ∧
    (∀ s i b rest,
      (runPrim Prim.pBindFloat o
          (QdVal.vPtr s :: QdVal.vInt i :: QdVal.vFloat b :: rest) ctx).calls =
        [NativeCall.bindFloatCall s (toInt32 i) b]) ∧
    (∀ v1 rest, isPtrV v1 = false →
      (runPrim Prim.pBindFloat o (v1 :: rest) ctx).stack = rest) ∧
    (∀ s v2 rest, isIntV v2 = false →
      (runPrim Prim.pBindFloat o (QdVal.vPtr s :: v2 :: rest) ctx).stack = rest) ∧
    (∀ s i v3 rest, isFloatV v3 = false →
      (runPrim Prim.pBindFloat o
          (QdVal.vPtr s :: QdVal.vInt i :: v3 :: rest) ctx).stack = rest) ∧
    (∀ s i rest,
      (runPrim Prim.pBindNull o (QdVal.vPtr s :: QdVal.vInt i :: rest) ctx).calls =
        [NativeCall.bindNullCall s (toInt32 i)]) ∧
    (∀ v1 rest, isPtrV v1 = false →
      (runPrim Prim.pBindNull o (v1 :: rest) ctx).stack = rest) ∧
    (∀ s v2 rest, isIntV v2 = false →
      (runPrim Prim.pBindNull o (QdVal.vPtr s :: v2 :: rest) ctx).stack = rest) ∧
    (∀ s i rest,
      (runPrim Prim.pColumnName o (QdVal.vPtr s :: QdVal.vInt i :: rest) ctx).calls =
        [NativeCall.columnNameCall s (toInt32 i)]) ∧
    (∀ v1 rest, isPtrV v1 = false →
      rest <:+ (runPrim Prim.pColumnName o (v1 :: rest) ctx).stack) ∧
    (∀ s v2 rest, isIntV v2 = false →
      rest <:+ (runPrim Prim.pColumnName o (QdVal.vPtr s :: v2 :: rest) ctx).stack) ∧
    (∀ s i rest,
      (runPrim Prim.pColumnType o (QdVal.vPtr s :: QdVal.vInt i :: rest) ctx).calls =
        [NativeCall.columnTypeCall s (toInt32 i)]) ∧
    (∀ v1 rest, isPtrV v1 = false →
      rest <:+ (runPrim Prim.pColumnType o (v1 :: rest) ctx).stack) ∧
    (∀ s v2 rest, isIntV v2 = false →
      rest <:+ (runPrim Prim.pColumnType o (QdVal.vPtr s :: v2 :: rest) ctx).stack) ∧
    (∀ s i rest,
      (runPrim Prim.pColumnInt o (QdVal.vPtr s :: QdVal.vInt i :: rest) ctx).calls =
        [NativeCall.columnIntCall s (toInt32 i)]) ∧
    (∀ v1 rest, isPtrV v1 = false →
      rest <:+ (runPrim Prim.pColumnInt o (v1 :: rest) ctx).stack) ∧
    (∀ s v2 rest, isIntV v2 = false →
      rest <:+ (runPrim Prim.pColumnInt o (QdVal.vPtr s :: v2 :: rest) ctx).stack) ∧
    (∀ s i rest,
      (runPrim Prim.pColumnFloat o (QdVal.vPtr s :: QdVal.vInt i :: rest) ctx).calls =
        [NativeCall.columnFloatCall s (toInt32 i)]) ∧
    (∀ v1 rest, isPtrV v1 = false →
      rest <:+ (runPrim Prim.pColumnFloat o (v1 :: rest) ctx).stack) ∧
    (∀ s v2 rest, isIntV v2 = false →
      rest <:+ (runPrim Prim.pColumnFloat o (QdVal.vPtr s :: v2 :: rest) ctx).stack) ∧
    (∀ s i rest,
      (runPrim Prim.pColumnText o (QdVal.vPtr s :: QdVal.vInt i :: rest) ctx).calls =
        [NativeCall.columnTextCall s (toInt32 i)]) ∧
    (∀ v1 rest, isPtrV v1 = false →
      rest <:+ (runPrim Prim.pColumnText o (v1 :: rest) ctx).stack) ∧
    (∀ s v2 rest, isIntV v2 = false →
      rest <:+ (runPrim Prim.pColumnText o (QdVal.vPtr s :: v2 :: rest) ctx).stack) := by
  refine ⟨?_, ?_, ?_, ?_, ?_, ?_, ?_, ?_, ?_, ?_, ?_, ?_, ?_, ?_, ?_, ?_, ?_, ?_,
          ?_, ?_, ?_, ?_, ?_, ?_, ?_, ?_, ?_, ?_, ?_, ?_, ?_, ?_, ?_, ?_, ?_, ?_⟩
  · intro db sql rest
    rcases hrc : o.sqlite3_exec db sql with ⟨rc, em⟩
    by_cases h : rc = 0 <;> simp_all
  · intro v1 rest h
    rcases v1 with i | b | s | q <;> simp_all
  · intro db v2 rest h
    rcases v2 with i | b | s | q <;> simp_all
  · intro db sql rest
    rcases hrc : o.sqlite3_prepare_v2 db sql with ⟨rc, stmt⟩
    by_cases h : rc = 0 <;> simp_all
  · intro v1 rest h
    rcases v1 with i | b | s | q <;> simp_all
  · intro db v2 rest h
    rcases v2 with i | b | s | q <;> simp_all
  · intro s i v rest
    by_cases h : o.sqlite3_bind_text s (toInt32 i) v v.length = 0 <;> simp_all
  · intro v1 rest h
    rcases v1 with i | b | s | q <;> simp_all
  · intro s v2 rest h
    rcases v2 with i | b | sx | q <;> simp_all
  · intro s i v3 rest h
    rcases v3 with ix | b | sx | q <;> simp_all
  · intro s i v rest
    by_cases h : o.sqlite3_bind_int64 s (toInt32 i) v = 0 <;> simp_all
  · intro v1 rest h
    rcases v1 with i | b | s | q <;> simp_all
  · intro s v2 rest h
    rcases v2 with i | b | sx | q <;> simp_all
  · intro s i v3 rest h
    rcases v3 with ix | b | sx | q <;> simp_all
  · intro s i b rest
    by_cases h : o.sqlite3_bind_double s (toInt32 i) b = 0 <;> simp_all
  · intro v1 rest h
    rcases v1 with i | b | s | q <;> simp_all
  · intro s v2 rest h
    rcases v2 with i | b | sx | q <;> simp_all
  · intro s i v3 rest h
    rcases v3 with ix | b | sx | q <;> simp_all
  · intro s i rest
    by_cases h : o.sqlite3_bind_null s (toInt32 i) = 0 <;> simp_all
  · intro v1 rest h
    rcases v1 with i | b | s | q <;> simp_all
  · intro s v2 rest h
    rcases v2 with i | b | sx | q <;> simp_all
  · intro s i rest
    simp
  · intro v1 rest h
    rcases v1 with i | b | s | q <;> simp_all
  · intro s v2 rest h
    rcases v2 with i | b | sx | q <;> simp_all
  · intro s i rest
    simp
  · intro v1 rest h
    rcases v1 with i | b | s | q <;> simp_all
  · intro s v2 rest h
    rcases v2 with i | b | sx | q <;> simp_all
  · intro s i rest
    simp
  · intro v1 rest h
    rcases v1 with i | b | s | q <;> simp_all
  · intro s v2 rest h
    rcases v2 with i | b | sx | q <;> simp_all
  · intro s i rest
    simp
  · intro v1 rest h
    rcases v1 with i | b | s | q <;> simp_all
  · intro s v2 rest h
    rcases v2 with i | b | sx | q <;> simp_all
  · intro s i rest
    rcases ht : o.sqlite3_column_text s (toInt32 i) with _ | t <;> simp_all
  · intro v1 rest h
    rcases v1 with i | b | s | q <;> simp_all
  · intro s v2 rest h
    rcases v2 with i | b | sx | q <;> simp_all

/-- C9 witness: when Exec's first pop (the database pointer) mismatches,
the deeper SQL-string operand is left on the stack. -/
theorem c9_witness :
    (runPrim Prim.pExec oracleOK [QdVal.vInt 3, QdVal.vStr "q"] ctx0).stack =
      [QdVal.vStr "q"] :=
  (c9_pop_order oracleOK ctx0).2.1 (QdVal.vInt 3) [QdVal.vStr "q"] (by decide)
